import Mathlib

/-!
Shallow embedding of the `dify-elevenlabs-provider` plugin:
 - `src/provider/dify-elevenlabs-provider.py` (`validate_provider_credentials`)
 - `src/models/speech2text/speech2text.py`    (`_invoke`, `validate_credentials`)
 - `src/models/tts/tts.py`                    (`_invoke`, `validate_credentials`)

The remote ElevenLabs client is modelled as an environment record: each field
gives the outcome (normal return or raised exception) of one remote operation.
Python exceptions are modelled by `PyExc` (a JSON-decode flag plus the string
`str(ex)`); the host error taxonomy by `ErrKind`.  A call's result is an
`Outcome`: a normal value, a classified host error, or a raw (unclassified)
propagated exception.
-/

namespace ElevenLabs

/-- Python `needle in hay` at a given alignment: `leadsWith n h` is true when
`n` is an initial segment of `h`. -/
def leadsWith : List Char → List Char → Bool
  | [], _ => true
  | _ :: _, [] => false
  | a :: as, b :: bs => a == b && leadsWith as bs

/-- Python substring containment over character lists. -/
def hasSub (needle : List Char) : List Char → Bool
  | [] => needle.isEmpty
  | c :: rest => leadsWith needle (c :: rest) || hasSub needle rest

/-- Python `needle in hay` on strings. -/
def pyIn (needle hay : String) : Bool :=
  hasSub needle.data hay.data

/-- Python `str.lower()` (ASCII-faithful model). -/
def pyLower (s : String) : String :=
  ⟨s.data.map Char.toLower⟩

/-- Python truthiness of an optional string value: `None` and `""` are falsy. -/
def pyFalsyOpt : Option String → Bool
  | none => true
  | some s => s.isEmpty

/-- A Python exception as the error classifiers see it: whether it is a
`json.JSONDecodeError`, and its textual form `str(ex)`. -/
structure PyExc where
  isJsonDecode : Bool
  msg : String
deriving DecidableEq, Repr

/-- The host error taxonomy (`dify_plugin.errors.model`). -/
inductive ErrKind where
  | credentialsInvalid
  | badRequest
  | unauthorized
  | rateLimited
  | serverUnavailable
  | connectionFailed
deriving DecidableEq, Repr

/-- Result of a public entry point: a value, a classified host error, or a raw
Python exception that escaped unclassified. -/
inductive Outcome (α : Type) where
  | ok (a : α)
  | host (k : ErrKind) (msg : String)
  | raw (ex : PyExc)
deriving DecidableEq, Repr

/-- The error kind of an outcome, if it is a classified host error. -/
def kindOf {α : Type} : Outcome α → Option ErrKind
  | .ok _ => none
  | .host k _ => some k
  | .raw _ => none

/-- True unless the outcome is a raw, unclassified exception. -/
def classified {α : Type} : Outcome α → Bool
  | .raw _ => false
  | _ => true

/-- The shared `except Exception` classifier of `speech2text.py:85-100` and
`tts.py:123-138`: `pfx` is the adapter's `error_message` prefix. -/
def classify (pfx : String) (ex : PyExc) : ErrKind × String :=
  let s := ex.msg
  let errorMessage := pfx ++ s
  if ex.isJsonDecode then
    (.badRequest, "Failed to process response: " ++ s)
  else if pyIn "401" s || pyIn "403" s then
    (.unauthorized, errorMessage)
  else if pyIn "429" s then
    (.rateLimited, errorMessage)
  else if pyIn "5" s && !s.data.isEmpty && s.data.head? == some '5' then
    (.serverUnavailable, errorMessage)
  else
    (.badRequest, errorMessage)

/-- Raise the classified form of `ex` as a host error. -/
def raiseClassified {α : Type} (pfx : String) (ex : PyExc) : Outcome α :=
  .host (classify pfx ex).1 (classify pfx ex).2

/-- Caller-supplied credentials: either not a mapping at all (`attrMsg` is the
message of the `AttributeError` that `credentials.get` would raise), or a
mapping whose `api_key` entry is `apiKey` (absent, empty, or a string). -/
inductive Creds where
  | notMapping (attrMsg : String)
  | mapping (apiKey : Option String)
deriving DecidableEq, Repr

/-- The local (non-remote) credential precheck fails: not a mapping, or the
`api_key` field missing/empty. -/
def credsBad : Creds → Bool
  | .notMapping _ => true
  | .mapping k => pyFalsyOpt k

/-- Remote operations used by `validate_provider_credentials`:
constructing `ElevenLabs(api_key=...)` and `voices.get_default_settings()`. -/
structure ProviderEnv where
  ctor : Except PyExc Unit
  get_default_settings : Except PyExc Unit

/-- `DifyElevenlabsProviderModelProvider.validate_provider_credentials`
(`dify-elevenlabs-provider.py:13-34`).  A `CredentialsValidateFailedError` is
re-raised as-is; any other exception is re-wrapped with the
`"Invalid API key: "` prefix. -/
def validate_provider_credentials (env : ProviderEnv) (credentials : Creds) :
    Outcome Unit :=
  match credentials with
  | .notMapping attrMsg =>
      .host .credentialsInvalid ("Invalid API key: " ++ attrMsg)
  | .mapping apiKey =>
      if pyFalsyOpt apiKey then
        .host .credentialsInvalid "API key is required"
      else
        match env.ctor with
        | .error ex => .host .credentialsInvalid ("Invalid API key: " ++ ex.msg)
        | .ok _ =>
            match env.get_default_settings with
            | .error ex =>
                .host .credentialsInvalid ("Invalid API key: " ++ ex.msg)
            | .ok _ => .ok ()

/-- The audio payload of a transcribe call: either an already-open readable
stream (`hasattr(audio_file, 'read')`) or a raw byte buffer. -/
inductive AudioInput where
  | stream (handle : Nat)
  | rawBytes (bytes : List Nat)
deriving DecidableEq, Repr

/-- What `_invoke` passes as `file=`: the stream itself, or the raw bytes
wrapped into an in-memory buffer. -/
inductive AudioData where
  | fromStream (handle : Nat)
  | bytesBuf (bytes : List Nat)
deriving DecidableEq, Repr

/-- The request `speech2text.py:72-78` sends to
`client.speech_to_text.convert`. -/
structure STTRequest where
  file : AudioData
  model_id : String
  tag_audio_events : Bool
  language_code : String
  diarize : Bool
deriving DecidableEq, Repr

/-- The remote transcription response; only its `text` field is used. -/
structure Transcription where
  text : String
deriving DecidableEq, Repr

/-- Remote operations used by the speech-to-text `_invoke`: the client
constructor and `speech_to_text.convert` (as a function of the request). -/
structure STTEnv where
  ctor : Except PyExc Unit
  convert : STTRequest → Except PyExc Transcription

/-- The `error_message` prefix of `speech2text.py:87`. -/
def sttPfx : String := "Speech-to-text transcription failed: "

/-- The request built by `speech2text.py:66-78`: the caller's `model` argument
is not forwarded — the source hard-codes `model_id="scribe_v1"` at the call
site (its local `model_id` variable is dead). -/
def sttRequest (_model : String) (audio_file : AudioInput) : STTRequest :=
  { file := match audio_file with
      | .stream h => .fromStream h
      | .rawBytes b => .bytesBuf b
    model_id := "scribe_v1"
    tag_audio_events := true
    language_code := "eng"
    diarize := true }

/-- `DifyElevenlabsProviderSpeech2TextModel._invoke`
(`speech2text.py:37-100`). -/
def stt_invoke (env : STTEnv) (model : String) (credentials : Creds)
    (audio_file : AudioInput) : Outcome String :=
  match credentials with
  | .notMapping _ =>
      .host .credentialsInvalid "Credentials must be a dictionary"
  | .mapping apiKey =>
      if pyFalsyOpt apiKey then
        .host .credentialsInvalid "API key is required"
      else
        match env.ctor with
        | .error ex => raiseClassified sttPfx ex
        | .ok _ =>
            match env.convert (sttRequest model audio_file) with
            | .error ex => raiseClassified sttPfx ex
            | .ok transcription => .ok transcription.text

/-- Remote operations used by the speech-to-text `validate_credentials`:
the client constructor and `speech_to_text.get_models()`. -/
structure STTValEnv where
  ctor : Except PyExc Unit
  get_models : Except PyExc (List String)

/-- `DifyElevenlabsProviderSpeech2TextModel.validate_credentials`
(`speech2text.py:102-126`): every exception, including the local precheck's
own raise, is caught and re-raised as `CredentialsValidateFailedError(str(ex))`.
A non-mapping value makes `credentials.get` raise an `AttributeError` inside
the `try`. -/
def stt_validate_credentials (env : STTValEnv) (credentials : Creds) :
    Outcome Unit :=
  match credentials with
  | .notMapping attrMsg => .host .credentialsInvalid attrMsg
  | .mapping apiKey =>
      if pyFalsyOpt apiKey then
        .host .credentialsInvalid "API key is required"
      else
        match env.ctor with
        | .error ex => .host .credentialsInvalid ex.msg
        | .ok _ =>
            match env.get_models with
            | .error ex => .host .credentialsInvalid ex.msg
            | .ok models =>
                if models.isEmpty then
                  .host .credentialsInvalid
                    "Failed to validate API key: Could not retrieve models"
                else .ok ()

/-- A voice as returned by `client.voices.get_all().voices`. -/
structure Voice where
  name : String
  voice_id : String
deriving DecidableEq, Repr

/-- A byte chunk of a streamed synthesis response. -/
abbrev Chunk := List Nat

/-- Python truthiness of a chunk (`if chunk:`): non-empty bytes are truthy. -/
def chunkTruthy (c : Chunk) : Bool := !c.isEmpty

/-- What `client.text_to_speech.convert` returns: a single byte buffer, or an
iterable of byte chunks. -/
inductive TTSResponse where
  | bytes (b : List Nat)
  | iter (chunks : List Chunk)
deriving DecidableEq, Repr

/-- The request `tts.py:96-108` sends to `client.text_to_speech.convert`. -/
structure TTSRequest where
  voice_id : String
  text : String
  model_id : String
  output_format : String
  stability : Rat
  similarity_boost : Rat
  style : Rat
  use_speaker_boost : Bool
deriving DecidableEq, Repr

/-- What the TTS `_invoke` hands back to the host: a full byte buffer, or the
generator `stream_generator()` holding its still-unconsumed source. -/
inductive TTSValue where
  | buffer (b : List Nat)
  | stream (src : List Chunk)
deriving DecidableEq, Repr

/-- One pull on the `stream_generator()` of `tts.py:113-117`: skip falsy
chunks, yield the first truthy one together with the unconsumed remainder of
the source; `none` when the source is exhausted. -/
def genStep : List Chunk → Option (Chunk × List Chunk)
  | [] => none
  | c :: rest => if chunkTruthy c then some (c, rest) else genStep rest

/-- All chunks the generator yields over its whole life, in order. -/
def genUnfold : List Chunk → List Chunk
  | [] => []
  | c :: rest => if chunkTruthy c then c :: genUnfold rest else genUnfold rest

/-- The dispatch of `tts.py:110-121`: an iterable, non-bytes response becomes
the lazy generator; anything else is returned directly. -/
def ttsDispatch : TTSResponse → TTSValue
  | .bytes b => .buffer b
  | .iter chunks => .stream chunks

/-- Remote operations used by the TTS `_invoke`: the client constructor,
`voices.get_all().voices`, and `text_to_speech.convert` as a function of the
request. -/
structure TTSEnv where
  ctor : Except PyExc Unit
  get_all : Except PyExc (List Voice)
  convert : TTSRequest → Except PyExc TTSResponse

/-- The `error_message` prefix of `tts.py:125`. -/
def ttsPfx : String := "Text-to-speech generation failed: "

/-- The first voice whose lowered name equals the lowered `voice` argument
(`tts.py:75-79`). -/
def findMatch (available : List Voice) (voice : String) : Option String :=
  match available with
  | [] => none
  | v :: rest =>
      if pyLower v.name == pyLower voice then some v.voice_id
      else findMatch rest voice

/-- The full resolution of `tts.py:74-84`: name match first; if the matched id
is falsy (or there was no match) and the list is non-empty, fall back to the
first voice's id. -/
def resolvedVoiceId (available : List Voice) (voice : String) : Option String :=
  let vid := findMatch available voice
  if pyFalsyOpt vid then
    match available with
    | [] => vid
    | v :: _ => some v.voice_id
  else vid

/-- The request built by `tts.py:89-108`: Python `model or "eleven_turbo_v2"`,
fixed output format and fixed voice settings. -/
def ttsRequest (voice_id content_text model : String) : TTSRequest :=
  { voice_id := voice_id
    text := content_text
    model_id := if model = "" then "eleven_turbo_v2" else model
    output_format := "mp3_44100_128"
    stability := 1 / 2
    similarity_boost := 3 / 4
    style := 0
    use_speaker_boost := true }

/-- `DifyElevenlabsProviderText2SpeechModel._invoke` (`tts.py:40-138`).  Note
the client constructor (`tts.py:68`) sits outside the `try`, so a constructor
exception propagates raw. -/
def tts_invoke (env : TTSEnv) (model _tenant_id : String) (credentials : Creds)
    (content_text voice : String) : Outcome TTSValue :=
  match credentials with
  | .notMapping _ =>
      .host .credentialsInvalid "Credentials must be a dictionary"
  | .mapping apiKey =>
      if pyFalsyOpt apiKey then
        .host .credentialsInvalid "API key is required"
      else
        match env.ctor with
        | .error ex => .raw ex
        | .ok _ =>
            match env.get_all with
            | .error ex => raiseClassified ttsPfx ex
            | .ok available_voices =>
                match resolvedVoiceId available_voices voice with
                | none =>
                    raiseClassified ttsPfx ⟨false, "No voices available"⟩
                | some vid =>
                    if vid.isEmpty then
                      raiseClassified ttsPfx ⟨false, "No voices available"⟩
                    else
                      match env.convert (ttsRequest vid content_text model) with
                      | .error ex => raiseClassified ttsPfx ex
                      | .ok response => .ok (ttsDispatch response)

/-- Remote operations used by the TTS `validate_credentials`: the client
constructor and `voices.get_all()`. -/
structure TTSValEnv where
  ctor : Except PyExc Unit
  get_all : Except PyExc (List Voice)

/-- `DifyElevenlabsProviderText2SpeechModel.validate_credentials`
(`tts.py:140-163`). -/
def tts_validate_credentials (env : TTSValEnv) (credentials : Creds) :
    Outcome Unit :=
  match credentials with
  | .notMapping attrMsg => .host .credentialsInvalid attrMsg
  | .mapping apiKey =>
      if pyFalsyOpt apiKey then
        .host .credentialsInvalid "API key is required"
      else
        match env.ctor with
        | .error ex => .host .credentialsInvalid ex.msg
        | .ok _ =>
            match env.get_all with
            | .error ex => .host .credentialsInvalid ex.msg
            | .ok _ => .ok ()

/-! ### Helper lemmas -/

theorem leadsWith_refl (l : List Char) : leadsWith l l = true := by
  induction l with
  | nil => rfl
  | cons c rest ih => simp [leadsWith, ih]

theorem hasSub_self (s : List Char) : hasSub s s = true := by
  cases s with
  | nil => rfl
  | cons c rest => simp [hasSub, leadsWith_refl]

theorem hasSub_cons (needle : List Char) (c : Char) (hay : List Char)
    (h : hasSub needle hay = true) : hasSub needle (c :: hay) = true := by
  simp [hasSub, h]

theorem hasSub_append (pfxl s : List Char) : hasSub s (pfxl ++ s) = true := by
  induction pfxl with
  | nil => simpa using hasSub_self s
  | cons c rest ih => exact hasSub_cons _ _ _ ih

theorem pyIn_append (pfx s : String) : pyIn s (pfx ++ s) = true := by
  simp only [pyIn, String.data_append]
  exact hasSub_append pfx.data s.data

theorem pyIn_five_of_head (s : String) (h : s.data.head? = some '5') :
    pyIn "5" s = true := by
  cases hd : s.data with
  | nil => simp [hd] at h
  | cons c rest =>
      rw [hd] at h
      have hc : c = '5' := by simpa using h
      subst hc
      have hs : "5".data = ['5'] := by decide
      simp [pyIn, hs, hd, hasSub, leadsWith]

/-- The `"5" in str(ex) and len > 0 and str(ex)[0] == "5"` guard is equivalent
to the message starting with the character `5`. -/
theorem guard5_eq (s : String) :
    (pyIn "5" s && !s.data.isEmpty && (s.data.head? == some '5')) =
      (s.data.head? == some '5') := by
  cases hd : s.data with
  | nil =>
      have hs : "5".data = ['5'] := by decide
      simp [pyIn, hs, hd, hasSub, List.isEmpty]
  | cons c rest =>
      by_cases hc : c = '5'
      · subst hc
        have h5 : pyIn "5" s = true := by
          apply pyIn_five_of_head
          simp [hd]
        simp [h5, hd]
      · simp [hd, hc]

theorem classify_json (pfx : String) (ex : PyExc) (h : ex.isJsonDecode = true) :
    (classify pfx ex).1 = .badRequest := by
  simp [classify, h]

theorem classify_auth (pfx : String) (ex : PyExc) (h : ex.isJsonDecode = false)
    (h2 : (pyIn "401" ex.msg || pyIn "403" ex.msg) = true) :
    (classify pfx ex).1 = .unauthorized := by
  simp [classify, h, h2]

theorem classify_rate (pfx : String) (ex : PyExc) (h : ex.isJsonDecode = false)
    (h2 : (pyIn "401" ex.msg || pyIn "403" ex.msg) = false)
    (h3 : pyIn "429" ex.msg = true) :
    (classify pfx ex).1 = .rateLimited := by
  simp only [Bool.or_eq_false_iff] at h2
  simp [classify, h, h2.1, h2.2, h3]

theorem classify_five (pfx : String) (ex : PyExc) (h : ex.isJsonDecode = false)
    (h2 : (pyIn "401" ex.msg || pyIn "403" ex.msg) = false)
    (h3 : pyIn "429" ex.msg = false) (h4 : ex.msg.data.head? = some '5') :
    (classify pfx ex).1 = .serverUnavailable := by
  simp only [Bool.or_eq_false_iff] at h2
  have h5 : pyIn "5" ex.msg = true := pyIn_five_of_head _ h4
  have hne : ¬ ex.msg.data = [] := by
    intro hnil
    rw [hnil] at h4
    simp at h4
  simp [classify, h, h2.1, h2.2, h3, h4, h5, hne]

theorem classify_other (pfx : String) (ex : PyExc) (h : ex.isJsonDecode = false)
    (h2 : (pyIn "401" ex.msg || pyIn "403" ex.msg) = false)
    (h3 : pyIn "429" ex.msg = false) (h4 : ¬ ex.msg.data.head? = some '5') :
    (classify pfx ex).1 = .badRequest := by
  simp only [Bool.or_eq_false_iff] at h2
  simp [classify, h, h2.1, h2.2, h3, h4]

/-- With the local precheck passed, transcribe runs the remote part. -/
theorem stt_invoke_run (env : STTEnv) (model : String) (creds : Creds)
    (audio : AudioInput) (h : credsBad creds = false) :
    stt_invoke env model creds audio =
      (match env.ctor with
       | .error ex => raiseClassified sttPfx ex
       | .ok _ =>
           match env.convert (sttRequest model audio) with
           | .error ex => raiseClassified sttPfx ex
           | .ok transcription => .ok transcription.text) := by
  cases creds with
  | notMapping m => simp [credsBad] at h
  | mapping k =>
      simp only [credsBad] at h
      simp [stt_invoke, h]

/-- With the local precheck passed and the client constructed, synthesize runs
the remote part. -/
theorem tts_invoke_run (env : TTSEnv) (model tid : String) (creds : Creds)
    (text voice : String) (h : credsBad creds = false)
    (hc : env.ctor = .ok ()) :
    tts_invoke env model tid creds text voice =
      (match env.get_all with
       | .error ex => raiseClassified ttsPfx ex
       | .ok available_voices =>
           match resolvedVoiceId available_voices voice with
           | none => raiseClassified ttsPfx ⟨false, "No voices available"⟩
           | some vid =>
               if vid.isEmpty then
                 raiseClassified ttsPfx ⟨false, "No voices available"⟩
               else
                 match env.convert (ttsRequest vid text model) with
                 | .error ex => raiseClassified ttsPfx ex
                 | .ok response => .ok (ttsDispatch response)) := by
  cases creds with
  | notMapping m => simp [credsBad] at h
  | mapping k =>
      simp only [credsBad] at h
      simp [tts_invoke, h, hc]

/-- On a one-voice list every `voice` argument resolves to that voice's id
(match or fallback-to-first). -/
theorem resolvedVoiceId_singleton (n i voice : String) (hi : i.isEmpty = false) :
    resolvedVoiceId [⟨n, i⟩] voice = some i := by
  simp only [resolvedVoiceId, findMatch]
  by_cases hm : pyLower n == pyLower voice
  · simp [hm, pyFalsyOpt, hi]
  · simp [hm, pyFalsyOpt]

/-! ### Shared concrete inputs -/

/-- Well-formed credentials. -/
def goodCreds : Creds := .mapping (some "valid-key")

/-- A transcribe environment whose remote call raises `ex`. -/
def sttEnvErr (ex : PyExc) : STTEnv :=
  ⟨.ok (), fun _ => .error ex⟩

/-- A synthesize environment with one voice whose remote call raises `ex`. -/
def ttsEnvErr (ex : PyExc) : TTSEnv :=
  ⟨.ok (), .ok [⟨"v1", "id1"⟩], fun _ => .error ex⟩

/-- A synthesize environment with one voice whose remote call returns `r`. -/
def ttsEnvResp (r : TTSResponse) : TTSEnv :=
  ⟨.ok (), .ok [⟨"v1", "id1"⟩], fun _ => .ok r⟩

/-- Kind of a classified error, independent of the adapter's message prefix,
as the cascade of nested conditionals over the exception. -/
theorem classify_fst (pfx : String) (ex : PyExc) :
    (classify pfx ex).1 =
      (if ex.isJsonDecode then ErrKind.badRequest
       else if pyIn "401" ex.msg || pyIn "403" ex.msg then .unauthorized
       else if pyIn "429" ex.msg then .rateLimited
       else if pyIn "5" ex.msg && !ex.msg.data.isEmpty &&
           (ex.msg.data.head? == some '5') then .serverUnavailable
       else .badRequest) := by
  simp only [classify]
  split_ifs <;> rfl

/-! ### Claims -/

/-- C1: whenever the credentials value is not a mapping or its `api_key` is
missing/empty, each of the three public entry points fails with the
`CredentialsInvalid` kind, and the result does not depend on the remote
environment at all — no remote call (constructor included) is attempted. -/
theorem c1_invalid_credentials_rejected_locally (creds : Creds)
    (h : credsBad creds = true) :
    (∀ (e1 e2 : STTEnv) (model : String) (audio : AudioInput),
        stt_invoke e1 model creds audio = stt_invoke e2 model creds audio) ∧
    (∀ (e : STTEnv) (model : String) (audio : AudioInput),
        kindOf (stt_invoke e model creds audio) = some .credentialsInvalid) ∧
    (∀ (e1 e2 : TTSEnv) (model tid text voice : String),
        tts_invoke e1 model tid creds text voice =
          tts_invoke e2 model tid creds text voice) ∧
    (∀ (e : TTSEnv) (model tid text voice : String),
        kindOf (tts_invoke e model tid creds text voice) =
          some .credentialsInvalid) ∧
    (∀ e1 e2 : ProviderEnv,
        validate_provider_credentials e1 creds =
          validate_provider_credentials e2 creds) ∧
    (∀ e : ProviderEnv,
        kindOf (validate_provider_credentials e creds) =
          some .credentialsInvalid) := by
  cases creds with
  | notMapping m =>
      refine ⟨?_, ?_, ?_, ?_, ?_, ?_⟩ <;> intros <;>
        simp [stt_invoke, tts_invoke, validate_provider_credentials, kindOf]
  | mapping k =>
      simp only [credsBad] at h
      refine ⟨?_, ?_, ?_, ?_, ?_, ?_⟩ <;> intros <;>
        simp [stt_invoke, tts_invoke, validate_provider_credentials, kindOf, h]

/-- Witness for C1 at credentials with a missing `api_key`. -/
theorem c1_witness :
    kindOf (stt_invoke (sttEnvErr ⟨false, "boom"⟩) "scribe_v1"
        (Creds.mapping none) (AudioInput.rawBytes [])) =
      some .credentialsInvalid :=
  (c1_invalid_credentials_rejected_locally (Creds.mapping none)
    (by decide)).2.1 _ _ _

/-- C2: when the remote call of either adapter raises exception `ex`, the
raised host kind is `(classify _ ex).1`, the same cascade for both adapters:
JSON-decode failure → BadRequest; else "401"/"403" in the message →
Unauthorized; else "429" → RateLimited; else leading character '5' →
ServerUnavailable; anything else → BadRequest. -/
theorem c2_classification_cascade (ex : PyExc) (creds : Creds)
    (hc : credsBad creds = false) (model tid text voice : String)
    (audio : AudioInput) :
    kindOf (stt_invoke (sttEnvErr ex) model creds audio) =
      some (classify sttPfx ex).1 ∧
    kindOf (tts_invoke (ttsEnvErr ex) model tid creds text voice) =
      some (classify ttsPfx ex).1 ∧
    (classify sttPfx ex).1 = (classify ttsPfx ex).1 ∧
    (ex.isJsonDecode = true → (classify sttPfx ex).1 = .badRequest) ∧
    (ex.isJsonDecode = false →
      (pyIn "401" ex.msg || pyIn "403" ex.msg) = true →
      (classify sttPfx ex).1 = .unauthorized) ∧
    (ex.isJsonDecode = false →
      (pyIn "401" ex.msg || pyIn "403" ex.msg) = false →
      pyIn "429" ex.msg = true → (classify sttPfx ex).1 = .rateLimited) ∧
    (ex.isJsonDecode = false →
      (pyIn "401" ex.msg || pyIn "403" ex.msg) = false →
      pyIn "429" ex.msg = false → ex.msg.data.head? = some '5' →
      (classify sttPfx ex).1 = .serverUnavailable) ∧
    (ex.isJsonDecode = false →
      (pyIn "401" ex.msg || pyIn "403" ex.msg) = false →
      pyIn "429" ex.msg = false → ¬ ex.msg.data.head? = some '5' →
      (classify sttPfx ex).1 = .badRequest) := by
  have h1 : "id1".isEmpty = false := by decide
  refine ⟨?_, ?_, ?_, ?_, ?_, ?_, ?_, ?_⟩
  · rw [stt_invoke_run _ _ _ _ hc]
    simp [sttEnvErr, raiseClassified, kindOf]
  · rw [tts_invoke_run _ _ _ _ _ _ hc rfl]
    simp [ttsEnvErr, resolvedVoiceId_singleton "v1" "id1" voice h1, h1,
      raiseClassified, kindOf]
  · rw [classify_fst, classify_fst]
  · exact fun h => classify_json _ _ h
  · exact fun h h2 => classify_auth _ _ h h2
  · exact fun h h2 h3 => classify_rate _ _ h h2 h3
  · exact fun h h2 h3 h4 => classify_five _ _ h h2 h3 h4
  · exact fun h h2 h3 h4 => classify_other _ _ h h2 h3 h4

/-- Witness for C2 on a rate-limit message. -/
theorem c2_witness :
    kindOf (stt_invoke (sttEnvErr ⟨false, "429 Too Many Requests"⟩) "scribe_v1"
        goodCreds (AudioInput.rawBytes [])) =
      some (classify sttPfx ⟨false, "429 Too Many Requests"⟩).1 ∧
    (classify sttPfx ⟨false, "429 Too Many Requests"⟩).1 = .rateLimited :=
  ⟨(c2_classification_cascade ⟨false, "429 Too Many Requests"⟩ goodCreds
      (by decide) "scribe_v1" "t" "hi" "v1" (AudioInput.rawBytes [])).1,
   (c2_classification_cascade ⟨false, "429 Too Many Requests"⟩ goodCreds
      (by decide) "scribe_v1" "t" "hi" "v1"
      (AudioInput.rawBytes [])).2.2.2.2.2.1 rfl (by decide) (by decide)⟩

/-- C3: a synthesize call whose remote result is an iterable of chunks returns
the lazy generator over exactly that source; the generator yields exactly the
truthy chunks in order; each pull consumes the source only up to the next
truthy chunk (the remainder is untouched when the first chunk is yielded);
and a single byte buffer is returned directly, not wrapped. -/
theorem c3_lazy_stream :
    (∀ (chunks : List Chunk) (model tid text voice : String),
        tts_invoke (ttsEnvResp (.iter chunks)) model tid goodCreds text voice =
          .ok (.stream chunks)) ∧
    (∀ chunks : List Chunk, genUnfold chunks = chunks.filter chunkTruthy) ∧
    (∀ src : List Chunk,
        genUnfold src =
          (match genStep src with
           | none => []
           | some (c, rest) => c :: genUnfold rest)) ∧
    (∀ (pre : List Chunk) (c : Chunk) (rest : List Chunk),
        (∀ x ∈ pre, chunkTruthy x = false) → chunkTruthy c = true →
        genStep (pre ++ c :: rest) = some (c, rest)) ∧
    (∀ (b : List Nat) (model tid text voice : String),
        tts_invoke (ttsEnvResp (.bytes b)) model tid goodCreds text voice =
          .ok (.buffer b)) := by
  have h1 : "id1".isEmpty = false := by decide
  refine ⟨?_, ?_, ?_, ?_, ?_⟩
  · intro chunks model tid text voice
    rw [tts_invoke_run _ _ _ _ _ _ (by decide) rfl]
    simp [ttsEnvResp, resolvedVoiceId_singleton "v1" "id1" voice h1, h1,
      ttsDispatch]
  · intro chunks
    induction chunks with
    | nil => rfl
    | cons c rest ih =>
        by_cases h : chunkTruthy c <;> simp [genUnfold, List.filter_cons, h, ih]
  · intro src
    induction src with
    | nil => rfl
    | cons c rest ih =>
        by_cases h : chunkTruthy c <;> simp [genStep, genUnfold, h, ih]
  · intro pre c rest hpre hc
    induction pre with
    | nil => simp [genStep, hc]
    | cons p ps ih =>
        have hp := hpre p (List.mem_cons_self p ps)
        simp only [List.cons_append, genStep, hp, Bool.false_eq_true, if_false]
        exact ih fun x hx => hpre x (List.mem_cons_of_mem _ hx)
  · intro b model tid text voice
    rw [tts_invoke_run _ _ _ _ _ _ (by decide) rfl]
    simp [ttsEnvResp, resolvedVoiceId_singleton "v1" "id1" voice h1, h1,
      ttsDispatch]

/-- Witness for C3 on the spec's scenario `[b"aa", b"", b"bb"]`. -/
theorem c3_witness :
    tts_invoke (ttsEnvResp (.iter [[97, 97], [], [98, 98]])) "m" "t" goodCreds
        "hi" "v1" = .ok (.stream [[97, 97], [], [98, 98]]) ∧
    genUnfold [[97, 97], [], [98, 98]] =
      List.filter chunkTruthy [[97, 97], [], [98, 98]] ∧
    genStep ([[]] ++ [97, 97] :: [[98, 98]]) = some ([97, 97], [[98, 98]]) :=
  ⟨c3_lazy_stream.1 [[97, 97], [], [98, 98]] "m" "t" "hi" "v1",
   c3_lazy_stream.2.1 [[97, 97], [], [98, 98]],
   c3_lazy_stream.2.2.2.1 [[]] [97, 97] [[98, 98]] (by decide) (by decide)⟩

/-- A classified raise is never a raw escape. -/
theorem classified_raise {α : Type} (pfx : String) (ex : PyExc) :
    classified (raiseClassified pfx ex : Outcome α) = true := rfl

/-- C4 counterexample: the message "5401 Unauthorized" begins with '5', yet
both adapters raise Unauthorized, not ServerUnavailable, because the
"401"/"403" check runs first in the cascade. -/
theorem c4_counterexample :
    "5401 Unauthorized".data.head? = some '5' ∧
    kindOf (stt_invoke (sttEnvErr ⟨false, "5401 Unauthorized"⟩) "scribe_v1"
        goodCreds (AudioInput.rawBytes [])) = some .unauthorized ∧
    kindOf (tts_invoke (ttsEnvErr ⟨false, "5401 Unauthorized"⟩) "m" "t"
        goodCreds "hi" "v1") = some .unauthorized ∧
    ErrKind.unauthorized ≠ ErrKind.serverUnavailable := by decide

/-- C4 (amended): for every simulated remote error that is not a JSON-decode
failure, whose message begins with '5' and contains none of "401", "403",
"429", both adapters raise the ServerUnavailable kind. -/
theorem c4_amended_leading_five (ex : PyExc) (h1 : ex.isJsonDecode = false)
    (h2 : ex.msg.data.head? = some '5') (h3 : pyIn "401" ex.msg = false)
    (h4 : pyIn "403" ex.msg = false) (h5 : pyIn "429" ex.msg = false)
    (creds : Creds) (hc : credsBad creds = false)
    (model tid text voice : String) (audio : AudioInput) :
    kindOf (stt_invoke (sttEnvErr ex) model creds audio) =
      some .serverUnavailable ∧
    kindOf (tts_invoke (ttsEnvErr ex) model tid creds text voice) =
      some .serverUnavailable := by
  have hid : "id1".isEmpty = false := by decide
  have hks : (classify sttPfx ex).1 = .serverUnavailable :=
    classify_five _ _ h1 (by simp [h3, h4]) h5 h2
  have hkt : (classify ttsPfx ex).1 = .serverUnavailable :=
    classify_five _ _ h1 (by simp [h3, h4]) h5 h2
  constructor
  · rw [stt_invoke_run _ _ _ _ hc]
    simp [sttEnvErr, raiseClassified, kindOf, hks]
  · rw [tts_invoke_run _ _ _ _ _ _ hc rfl]
    simp [ttsEnvErr, resolvedVoiceId_singleton "v1" "id1" voice hid, hid,
      raiseClassified, kindOf, hkt]

/-- Witness for the amended C4 on "503 Service Unavailable". -/
theorem c4_witness :
    kindOf (stt_invoke (sttEnvErr ⟨false, "503 Service Unavailable"⟩)
        "scribe_v1" goodCreds (AudioInput.rawBytes [])) =
      some .serverUnavailable ∧
    kindOf (tts_invoke (ttsEnvErr ⟨false, "503 Service Unavailable"⟩) "m" "t"
        goodCreds "hi" "v1") = some .serverUnavailable :=
  c4_amended_leading_five ⟨false, "503 Service Unavailable"⟩ rfl (by decide)
    (by decide) (by decide) (by decide) goodCreds (by decide) "scribe_v1" "t"
    "hi" "v1" (AudioInput.rawBytes [])

/-- C5 counterexample: in synthesize the remote-client constructor sits
outside the `try`, so a constructor exception escapes raw, not as one of the
six host kinds. -/
theorem c5_counterexample :
    tts_invoke ⟨.error ⟨false, "constructor boom"⟩, .ok [],
        fun _ => .ok (.bytes [])⟩ "m" "t" goodCreds "hi" "v1" =
      .raw ⟨false, "constructor boom"⟩ ∧
    classified (tts_invoke ⟨.error ⟨false, "constructor boom"⟩, .ok [],
        fun _ => .ok (.bytes [])⟩ "m" "t" goodCreds "hi" "v1") = false := by
  decide

/-- C5 (amended): every failure escaping transcribe is a classified host
error; every failure escaping synthesize is classified provided the
remote-client constructor does not itself raise (a constructor exception
propagates unclassified). -/
theorem c5_amended_classified_boundary :
    (∀ (e : STTEnv) (model : String) (creds : Creds) (audio : AudioInput),
        classified (stt_invoke e model creds audio) = true) ∧
    (∀ (e : TTSEnv) (model tid : String) (creds : Creds) (text voice : String),
        e.ctor = .ok () →
        classified (tts_invoke e model tid creds text voice) = true) := by
  constructor
  · intro e model creds audio
    cases creds with
    | notMapping m => simp [stt_invoke, classified]
    | mapping k =>
        by_cases hk : pyFalsyOpt k = true
        · simp [stt_invoke, hk, classified]
        · simp only [Bool.not_eq_true] at hk
          cases hctor : e.ctor with
          | error ex => simp [stt_invoke, hk, hctor, classified_raise]
          | ok u =>
              cases hconv : e.convert (sttRequest model audio) with
              | error ex =>
                  simp [stt_invoke, hk, hctor, hconv, classified_raise]
              | ok t => simp [stt_invoke, hk, hctor, hconv, classified]
  · intro e model tid creds text voice hctor
    cases creds with
    | notMapping m => simp [tts_invoke, classified]
    | mapping k =>
        by_cases hk : pyFalsyOpt k = true
        · simp [tts_invoke, hk, classified]
        · simp only [Bool.not_eq_true] at hk
          rw [tts_invoke_run _ _ _ _ _ _ (by simpa [credsBad] using hk) hctor]
          cases hga : e.get_all with
          | error ex => simp [classified_raise]
          | ok voices =>
              cases hres : resolvedVoiceId voices voice with
              | none => simp [hres, classified_raise]
              | some vid =>
                  by_cases hv : vid.isEmpty = true
                  · simp [hres, hv, classified_raise]
                  · simp only [Bool.not_eq_true] at hv
                    cases hconv : e.convert (ttsRequest vid text model) with
                    | error ex =>
                        simp [hres, hv, hconv, classified_raise]
                    | ok r => simp [hres, hv, hconv, classified]

/-- Witness for the amended C5 with a succeeding constructor. -/
theorem c5_witness :
    classified (tts_invoke (ttsEnvResp (.bytes [1])) "m" "t" goodCreds "hi"
        "v1") = true :=
  c5_amended_classified_boundary.2 (ttsEnvResp (.bytes [1])) "m" "t" goodCreds
    "hi" "v1" rfl

/-- C6 counterexample: the transcribe request ignores the caller's model
argument — invoked with model "whisper-1", the remote endpoint still
receives model id "scribe_v1". -/
theorem c6_counterexample :
    (sttRequest "whisper-1" (AudioInput.rawBytes [])).model_id = "scribe_v1" ∧
    ¬ (sttRequest "whisper-1" (AudioInput.rawBytes [])).model_id =
        "whisper-1" ∧
    stt_invoke ⟨.ok (), fun r => .ok ⟨r.model_id⟩⟩ "whisper-1" goodCreds
        (AudioInput.rawBytes []) = .ok "scribe_v1" := by decide

/-- C6 (amended): every transcribe request carries the fixed model identifier
"scribe_v1" (the caller-supplied model is ignored) together with the fixed
options: tag audio events enabled, diarization enabled, language hint "eng";
with valid credentials the adapter sends exactly this request and returns the
response's text. -/
theorem c6_amended_fixed_transcription_request (model : String)
    (audio : AudioInput) (creds : Creds) (hc : credsBad creds = false)
    (f : STTRequest → Except PyExc Transcription) (t : Transcription)
    (hf : f (sttRequest model audio) = .ok t) :
    stt_invoke ⟨.ok (), f⟩ model creds audio = .ok t.text ∧
    (sttRequest model audio).model_id = "scribe_v1" ∧
    (sttRequest model audio).tag_audio_events = true ∧
    (sttRequest model audio).diarize = true ∧
    (sttRequest model audio).language_code = "eng" := by
  refine ⟨?_, rfl, rfl, rfl, rfl⟩
  rw [stt_invoke_run _ _ _ _ hc]
  simp [hf]

/-- Witness for the amended C6 on the spec's transcription scenario. -/
theorem c6_witness :
    stt_invoke ⟨.ok (), fun _ => .ok ⟨"hello world"⟩⟩ "whisper-1" goodCreds
        (AudioInput.rawBytes [1, 2]) = .ok "hello world" :=
  (c6_amended_fixed_transcription_request "whisper-1"
      (AudioInput.rawBytes [1, 2]) goodCreds (by decide)
      (fun _ => .ok ⟨"hello world"⟩) ⟨"hello world"⟩ rfl).1

theorem findMatch_mem (voices : List Voice) (voice vid : String)
    (h : findMatch voices voice = some vid) :
    ∃ v ∈ voices, pyLower v.name = pyLower voice ∧ v.voice_id = vid := by
  induction voices with
  | nil => simp [findMatch] at h
  | cons v rest ih =>
      by_cases hm : (pyLower v.name == pyLower voice) = true
      · simp only [findMatch, hm, if_true] at h
        exact ⟨v, List.mem_cons_self _ _, by simpa using hm, by simpa using h⟩
      · simp only [Bool.not_eq_true] at hm
        simp only [findMatch, hm, Bool.false_eq_true, if_false] at h
        obtain ⟨w, hw, hweq, hwid⟩ := ih h
        exact ⟨w, List.mem_cons_of_mem _ hw, hweq, hwid⟩

theorem findMatch_none (voices : List Voice) (voice : String)
    (h : ∀ v ∈ voices, ¬ pyLower v.name = pyLower voice) :
    findMatch voices voice = none := by
  induction voices with
  | nil => rfl
  | cons v rest ih =>
      have hv : (pyLower v.name == pyLower voice) = false := by
        simpa using h v (List.mem_cons_self _ _)
      simp only [findMatch, hv, Bool.false_eq_true, if_false]
      exact ih fun x hx => h x (List.mem_cons_of_mem _ hx)

theorem findMatch_of_exists (voices : List Voice) (voice : String)
    (h : ∃ v ∈ voices, pyLower v.name = pyLower voice) :
    ∃ vid, findMatch voices voice = some vid := by
  induction voices with
  | nil => simp at h
  | cons v rest ih =>
      by_cases hm : pyLower v.name = pyLower voice
      · exact ⟨v.voice_id, by simp [findMatch, hm]⟩
      · obtain ⟨w, hw, hweq⟩ := h
        rcases List.mem_cons.mp hw with rfl | hw2
        · exact absurd hweq hm
        · obtain ⟨vid, hvid⟩ := ih ⟨w, hw2, hweq⟩
          have hm2 : (pyLower v.name == pyLower voice) = false := by simpa using hm
          exact ⟨vid, by simp [findMatch, hm2, hvid]⟩

theorem resolvedVoiceId_mem (voices : List Voice) (voice vid : String)
    (h : resolvedVoiceId voices voice = some vid) :
    ∃ v ∈ voices, v.voice_id = vid := by
  unfold resolvedVoiceId at h
  cases hf : findMatch voices voice with
  | none =>
      rw [hf] at h
      cases voices with
      | nil => simp [pyFalsyOpt] at h
      | cons v rest =>
          simp only [pyFalsyOpt, if_true, Option.some.injEq] at h
          exact ⟨v, List.mem_cons_self _ _, h⟩
  | some m =>
      rw [hf] at h
      by_cases hm : m.isEmpty = true
      · simp only [pyFalsyOpt, hm, if_true] at h
        cases voices with
        | nil => simp [findMatch] at hf
        | cons v rest =>
            simp only [Option.some.injEq] at h
            exact ⟨v, List.mem_cons_self _ _, h⟩
      · simp only [Bool.not_eq_true] at hm
        simp only [pyFalsyOpt, hm, Bool.false_eq_true, if_false,
          Option.some.injEq] at h
        obtain ⟨w, hw, _, hwid⟩ := findMatch_mem voices voice m hf
        exact ⟨w, hw, by rw [hwid, h]⟩

/-- C7: the voice argument is resolved against the remote voice list: a
case-insensitive name match yields that voice's identifier; with no match and
a non-empty list, the first voice's identifier is used; the adapter then calls
the synthesis endpoint with the resolved identifier; and with an empty voice
list the call fails.  (Voice identifiers are assumed non-empty, as real
identifiers are.) -/
theorem c7_voice_resolution (voices : List Voice) (voice : String)
    (hids : ∀ v ∈ voices, v.voice_id.isEmpty = false) :
    ((∃ v ∈ voices, pyLower v.name = pyLower voice) →
        ∃ w ∈ voices, pyLower w.name = pyLower voice ∧
          resolvedVoiceId voices voice = some w.voice_id) ∧
    ((∀ v ∈ voices, ¬ pyLower v.name = pyLower voice) →
        resolvedVoiceId voices voice = voices.head?.map Voice.voice_id) ∧
    (∀ (model tid text : String) (f : TTSRequest → Except PyExc TTSResponse)
        (vid : String) (r : TTSResponse),
        resolvedVoiceId voices voice = some vid →
        f (ttsRequest vid text model) = .ok r →
        tts_invoke ⟨.ok (), .ok voices, f⟩ model tid goodCreds text voice =
          .ok (ttsDispatch r)) ∧
    (∀ (f : TTSRequest → Except PyExc TTSResponse) (model tid text : String),
        ∃ m, tts_invoke ⟨.ok (), .ok [], f⟩ model tid goodCreds text voice =
          .host .badRequest m) := by
  refine ⟨?_, ?_, ?_, ?_⟩
  · intro h
    obtain ⟨vid, hf⟩ := findMatch_of_exists voices voice h
    obtain ⟨w, hw, hweq, hwid⟩ := findMatch_mem voices voice vid hf
    have hne : vid.isEmpty = false := by rw [← hwid]; exact hids w hw
    refine ⟨w, hw, hweq, ?_⟩
    rw [hwid]
    simp [resolvedVoiceId, hf, pyFalsyOpt, hne]
  · intro h
    have hf := findMatch_none voices voice h
    cases voices <;> simp [resolvedVoiceId, hf, pyFalsyOpt]
  · intro model tid text f vid r hres hf
    obtain ⟨w, hw, hwid⟩ := resolvedVoiceId_mem voices voice vid hres
    have hne : vid.isEmpty = false := by rw [← hwid]; exact hids w hw
    rw [tts_invoke_run _ _ _ _ _ _ (by decide) rfl]
    simp [hres, hne, hf]
  · intro f model tid text
    refine ⟨"Text-to-speech generation failed: No voices available", ?_⟩
    rw [tts_invoke_run _ _ _ _ _ _ (by decide) rfl]
    exact (by decide :
      (raiseClassified ttsPfx ⟨false, "No voices available"⟩ : Outcome TTSValue) =
        .host .badRequest
          "Text-to-speech generation failed: No voices available")

/-- Witness for C7: "rachel" matches voice "Rachel" case-insensitively. -/
theorem c7_witness :
    ∃ w ∈ [Voice.mk "Rachel" "r1"], pyLower w.name = pyLower "rachel" ∧
      resolvedVoiceId [Voice.mk "Rachel" "r1"] "rachel" = some w.voice_id :=
  (c7_voice_resolution [Voice.mk "Rachel" "r1"] "rachel" (by decide)).1
    ⟨Voice.mk "Rachel" "r1", by decide, by decide⟩

/-- C8: once the local api_key precheck has passed, any failure of the remote
probe (constructor included) makes each validator raise `CredentialsInvalid`
with a message carrying the original error's message; and no validator ever
surfaces any kind other than `CredentialsInvalid`. -/
theorem c8_validation_collapses_to_credentials_invalid (ex : PyExc)
    (apiKey : String) (hk : apiKey.isEmpty = false) :
    (validate_provider_credentials ⟨.ok (), .error ex⟩
          (.mapping (some apiKey)) =
        .host .credentialsInvalid ("Invalid API key: " ++ ex.msg) ∧
      pyIn ex.msg ("Invalid API key: " ++ ex.msg) = true) ∧
    validate_provider_credentials ⟨.error ex, .ok ()⟩ (.mapping (some apiKey)) =
      .host .credentialsInvalid ("Invalid API key: " ++ ex.msg) ∧
    stt_validate_credentials ⟨.ok (), .error ex⟩ (.mapping (some apiKey)) =
      .host .credentialsInvalid ex.msg ∧
    tts_validate_credentials ⟨.ok (), .error ex⟩ (.mapping (some apiKey)) =
      .host .credentialsInvalid ex.msg ∧
    (∀ (e : ProviderEnv) (creds : Creds),
        kindOf (validate_provider_credentials e creds) =
            some .credentialsInvalid ∨
          validate_provider_credentials e creds = .ok ()) ∧
    (∀ (e : STTValEnv) (creds : Creds),
        kindOf (stt_validate_credentials e creds) = some .credentialsInvalid ∨
          stt_validate_credentials e creds = .ok ()) ∧
    (∀ (e : TTSValEnv) (creds : Creds),
        kindOf (tts_validate_credentials e creds) = some .credentialsInvalid ∨
          tts_validate_credentials e creds = .ok ()) := by
  refine ⟨⟨?_, pyIn_append _ _⟩, ?_, ?_, ?_, ?_, ?_, ?_⟩
  · simp [validate_provider_credentials, pyFalsyOpt, hk]
  · simp [validate_provider_credentials, pyFalsyOpt, hk]
  · simp [stt_validate_credentials, pyFalsyOpt, hk]
  · simp [tts_validate_credentials, pyFalsyOpt, hk]
  · intro e creds
    cases creds with
    | notMapping m => left; simp [validate_provider_credentials, kindOf]
    | mapping k =>
        by_cases hkk : pyFalsyOpt k = true
        · left; simp [validate_provider_credentials, hkk, kindOf]
        · simp only [Bool.not_eq_true] at hkk
          cases hc : e.ctor with
          | error ex2 =>
              left; simp [validate_provider_credentials, hkk, hc, kindOf]
          | ok u =>
              cases hg : e.get_default_settings with
              | error ex2 =>
                  left
                  simp [validate_provider_credentials, hkk, hc, hg, kindOf]
              | ok u2 =>
                  right
                  simp [validate_provider_credentials, hkk, hc, hg]
  · intro e creds
    cases creds with
    | notMapping m => left; simp [stt_validate_credentials, kindOf]
    | mapping k =>
        by_cases hkk : pyFalsyOpt k = true
        · left; simp [stt_validate_credentials, hkk, kindOf]
        · simp only [Bool.not_eq_true] at hkk
          cases hc : e.ctor with
          | error ex2 =>
              left; simp [stt_validate_credentials, hkk, hc, kindOf]
          | ok u =>
              cases hg : e.get_models with
              | error ex2 =>
                  left; simp [stt_validate_credentials, hkk, hc, hg, kindOf]
              | ok models =>
                  by_cases hm : models.isEmpty = true
                  · left
                    simp [stt_validate_credentials, hkk, hc, hg, hm, kindOf]
                  · right
                    simp only [Bool.not_eq_true] at hm
                    simp [stt_validate_credentials, hkk, hc, hg, hm]
  · intro e creds
    cases creds with
    | notMapping m => left; simp [tts_validate_credentials, kindOf]
    | mapping k =>
        by_cases hkk : pyFalsyOpt k = true
        · left; simp [tts_validate_credentials, hkk, kindOf]
        · simp only [Bool.not_eq_true] at hkk
          cases hc : e.ctor with
          | error ex2 =>
              left; simp [tts_validate_credentials, hkk, hc, kindOf]
          | ok u =>
              cases hg : e.get_all with
              | error ex2 =>
                  left; simp [tts_validate_credentials, hkk, hc, hg, kindOf]
              | ok vs => right; simp [tts_validate_credentials, hkk, hc, hg]

/-- Witness for C8 on a failing remote probe. -/
theorem c8_witness :
    validate_provider_credentials ⟨.ok (), .error ⟨false, "boom"⟩⟩
        (.mapping (some "k")) =
      .host .credentialsInvalid ("Invalid API key: " ++ "boom") ∧
    pyIn "boom" ("Invalid API key: " ++ "boom") = true :=
  (c8_validation_collapses_to_credentials_invalid ⟨false, "boom"⟩ "k"
    (by decide)).1

/-- C9: a synthesize call against a remote service with an empty voice list
fails with BadRequest — the internally raised "No voices available"
credentials error is reclassified by the adapter's own cascade — and not
with CredentialsInvalid. -/
theorem c9_empty_voice_list_is_bad_request (e : TTSEnv)
    (model tid text voice : String) (creds : Creds)
    (hc : credsBad creds = false) (hctor : e.ctor = .ok ())
    (hv : e.get_all = .ok []) :
    tts_invoke e model tid creds text voice =
      .host .badRequest
        "Text-to-speech generation failed: No voices available" ∧
    ¬ kindOf (tts_invoke e model tid creds text voice) =
        some .credentialsInvalid := by
  have hmain : tts_invoke e model tid creds text voice =
      .host .badRequest
        "Text-to-speech generation failed: No voices available" := by
    rw [tts_invoke_run _ _ _ _ _ _ hc hctor, hv]
    exact (by decide :
      (raiseClassified ttsPfx ⟨false, "No voices available"⟩ :
          Outcome TTSValue) =
        .host .badRequest
          "Text-to-speech generation failed: No voices available")
  exact ⟨hmain, by rw [hmain]; simp [kindOf]⟩

/-- Witness for C9 at a concrete empty-voice-list environment. -/
theorem c9_witness :
    tts_invoke ⟨.ok (), .ok [], fun _ => .ok (.bytes [])⟩ "m" "t" goodCreds
        "hi" "v1" =
      .host .badRequest
        "Text-to-speech generation failed: No voices available" :=
  (c9_empty_voice_list_is_bad_request ⟨.ok (), .ok [], fun _ => .ok (.bytes [])⟩
    "m" "t" "hi" "v1" goodCreds (by decide) rfl rfl).1

/-- C10: the synthesis request's model identifier is Python
`model or "eleven_turbo_v2"`: the default exactly when the model argument is
empty (falsy), the argument itself otherwise; and with valid credentials the
adapter sends exactly this request. -/
theorem c10_default_model_id (model tid text voice : String) (creds : Creds)
    (hc : credsBad creds = false) (voices : List Voice) (vid : String)
    (hres : resolvedVoiceId voices voice = some vid)
    (hvid : vid.isEmpty = false) :
    (model = "" → (ttsRequest vid text model).model_id = "eleven_turbo_v2") ∧
    (¬ model = "" → (ttsRequest vid text model).model_id = model) ∧
    (∀ (f : TTSRequest → Except PyExc TTSResponse) (r : TTSResponse),
        f (ttsRequest vid text model) = .ok r →
        tts_invoke ⟨.ok (), .ok voices, f⟩ model tid creds text voice =
          .ok (ttsDispatch r)) := by
  refine ⟨?_, ?_, ?_⟩
  · intro h; simp [ttsRequest, h]
  · intro h; simp [ttsRequest, h]
  · intro f r hf
    rw [tts_invoke_run _ _ _ _ _ _ hc rfl]
    simp [hres, hvid, hf]

/-- Witness for C10 with an empty model argument. -/
theorem c10_witness :
    (ttsRequest "id1" "hi" "").model_id = "eleven_turbo_v2" ∧
    tts_invoke ⟨.ok (), .ok [⟨"v1", "id1"⟩], fun _ => .ok (.bytes [3])⟩ "" "t"
        goodCreds "hi" "v1" = .ok (.buffer [3]) :=
  ⟨(c10_default_model_id "" "t" "hi" "v1" goodCreds (by decide) [⟨"v1", "id1"⟩]
      "id1" (by decide) (by decide)).1 rfl,
   (c10_default_model_id "" "t" "hi" "v1" goodCreds (by decide) [⟨"v1", "id1"⟩]
      "id1" (by decide) (by decide)).2.2 (fun _ => .ok (.bytes [3]))
      (.bytes [3]) rfl⟩

end ElevenLabs
